import Mathlib

/-!
Verification of the rotation scheduler of the description_user_bot repository.

The Rust sources are embedded shallowly:
- wall-clock time (the now_unix helper in src/scheduler/state.rs) becomes an
  explicit parameter now : Nat (Unix seconds);
- the external bio-update call of the runner becomes an oracle parameter
  carrying the result the call returned;
- file writes (state save, config save) become explicit effect values in the
  return type of the embedded function, so that "was anything persisted" is a
  statement about the returned effect list.
-/

/-- Description entry from src/config/descriptions.rs (struct Description). -/
structure Description where
  id : String
  text : String
  duration_secs : Nat
deriving Repr, DecidableEq

/-- Character count of the description text (Description::char_count).
Rust counts chars(); Lean String.length counts the same unicode scalar values. -/
def Description.char_count (d : Description) : Nat :=
  d.text.length

/-- Configuration from src/config/descriptions.rs (struct DescriptionConfig). -/
structure DescriptionConfig where
  descriptions : List Description
  is_premium : Bool
  auto_detect_premium : Bool
deriving Repr, DecidableEq

/-- DescriptionConfig::get. -/
def DescriptionConfig.get (c : DescriptionConfig) (index : Nat) : Option Description :=
  c.descriptions[index]?

/-- DescriptionConfig::len. -/
def DescriptionConfig.len (c : DescriptionConfig) : Nat :=
  c.descriptions.length

/-- DescriptionConfig::is_empty. -/
def DescriptionConfig.is_empty (c : DescriptionConfig) : Bool :=
  c.descriptions.isEmpty

/-- MAX_BIO_LENGTH_FREE from src/config/mod.rs. -/
def MAX_BIO_LENGTH_FREE : Nat := 70

/-- MAX_BIO_LENGTH_PREMIUM from src/config/mod.rs. -/
def MAX_BIO_LENGTH_PREMIUM : Nat := 140

/-- Persistent state from src/scheduler/state.rs (struct PersistentState). -/
structure PersistentState where
  current_index : Nat
  is_paused : Bool
  expires_at_unix : Option Nat
  custom_description : Option String
deriving Repr, DecidableEq

/-- Runtime scheduler state from src/scheduler/state.rs (struct SchedulerState). -/
structure SchedulerState where
  current_index : Nat
  is_paused : Bool
  custom_description : Option String
  expires_at_unix : Option Nat
  current_duration_secs : Option Nat
deriving Repr, DecidableEq

/-- SchedulerState::from_persistent. -/
def SchedulerState.from_persistent (persistent : PersistentState) : SchedulerState :=
  { current_index := persistent.current_index
    is_paused := persistent.is_paused
    custom_description := persistent.custom_description
    expires_at_unix := persistent.expires_at_unix
    current_duration_secs := none }

/-- SchedulerState::to_persistent. -/
def SchedulerState.to_persistent (s : SchedulerState) : PersistentState :=
  { current_index := s.current_index
    is_paused := s.is_paused
    expires_at_unix := s.expires_at_unix
    custom_description := s.custom_description }

/-- SchedulerState::is_expired; now stands for the now_unix() system call. -/
def SchedulerState.is_expired (s : SchedulerState) (now : Nat) : Bool :=
  match s.expires_at_unix with
  | some deadline => decide (now ≥ deadline)
  | none => true

/-- SchedulerState::has_deadline. -/
def SchedulerState.has_deadline (s : SchedulerState) : Bool :=
  s.expires_at_unix.isSome

/-- SchedulerState::time_remaining (returns whole seconds; source uses Duration). -/
def SchedulerState.time_remaining (s : SchedulerState) (now : Nat) : Option Nat :=
  match s.expires_at_unix with
  | some deadline => if now ≥ deadline then some 0 else some (deadline - now)
  | none => none

/-- SchedulerState::advance. -/
def SchedulerState.advance (s : SchedulerState) (total_count : Nat) : SchedulerState :=
  if total_count = 0 then s
  else { s with current_index := (s.current_index + 1) % total_count }

/-- SchedulerState::set_deadline. -/
def SchedulerState.set_deadline (s : SchedulerState) (now duration_secs : Nat) :
    SchedulerState :=
  { s with expires_at_unix := some (now + duration_secs)
           current_duration_secs := some duration_secs }

/-- SchedulerState::clear_deadline. -/
def SchedulerState.clear_deadline (s : SchedulerState) : SchedulerState :=
  { s with expires_at_unix := none, current_duration_secs := none }

/-- SchedulerState::set_index. -/
def SchedulerState.set_index (s : SchedulerState) (index : Nat) : SchedulerState :=
  ({ s with current_index := index }).clear_deadline

/-- SchedulerState::clear_custom. -/
def SchedulerState.clear_custom (s : SchedulerState) : SchedulerState :=
  { s with custom_description := none }

/-- Failure results of the external update call, as
src/scheduler/runner.rs matches them (RateLimited, FloodWait, and a
catch-all arm for every other error; all three arms behave identically).
The client enum in src/telegram/client.rs lists further variants such as
NotAuthorized; they fall under the catch-all arm. -/
inductive TelegramError where
  | RateLimited (seconds : Nat)
  | FloodWait (seconds : Nat)
  | NotAuthorized
  | Other (message : String)
deriving Repr, DecidableEq

/-- Result of the external bot.update_bio call, supplied to the embedded tick
as an oracle since the call itself is network I/O. -/
inductive UpdateResult where
  | ok
  | err (e : TelegramError)
deriving Repr, DecidableEq

/-- Observable outcome of one decision cycle: the state after the cycle, the
persistent value written to disk (none when nothing was persisted), and the
text handed to the external update call (none when no call was made). -/
structure TickOutcome where
  state : SchedulerState
  saved : Option PersistentState
  sent : Option String
deriving Repr, DecidableEq

/-- Commit phase of DescriptionScheduler::tick (runner.rs, steps 3 and 4):
the candidate text is sent; on Ok the decided changes are applied (clear the
custom description, or advance when should_advance), the new deadline is set
and the state is persisted; on every Err arm the state is left untouched and
nothing is saved. -/
def tickCommit (now : Nat) (cfg : DescriptionConfig) (st : SchedulerState)
    (result : UpdateResult) (text : String) (duration_secs : Nat)
    (should_advance has_custom : Bool) : TickOutcome :=
  match result with
  | UpdateResult.ok =>
    let st1 := if has_custom then { st with custom_description := none }
               else if should_advance then st.advance cfg.len
               else st
    let st2 := st1.set_deadline now duration_secs
    { state := st2, saved := some st2.to_persistent, sent := some text }
  | UpdateResult.err _ => { state := st, saved := none, sent := some text }

/-- One tick of DescriptionScheduler (src/scheduler/runner.rs, tick): the
paused/expired guard, the empty-config guard, the read-only decision (custom
description first, otherwise rotation with should_advance = has_deadline and
a fall-back to index 0 when the computed index is out of range), then the
commit phase. The source re-checks the paused/expired guard after
re-acquiring the locks; in this sequential embedding the second check is
identical to the first and collapses into it. -/
def tick (now : Nat) (cfg : DescriptionConfig) (st : SchedulerState)
    (result : UpdateResult) : TickOutcome :=
  if st.is_paused || !(st.is_expired now) then { state := st, saved := none, sent := none }
  else if cfg.is_empty then { state := st, saved := none, sent := none }
  else
    match st.custom_description with
    | some custom => tickCommit now cfg st result custom 3600 false true
    | none =>
      let should_advance := st.has_deadline
      let next_index := if should_advance then (st.current_index + 1) % cfg.len
                        else st.current_index
      match (cfg.get next_index).orElse (fun _ => cfg.get 0) with
      | none => { state := st, saved := none, sent := none }
      | some desc =>
          tickCommit now cfg st result desc.text desc.duration_secs should_advance false

/-- Sample description a. -/
def dA : Description := ⟨"a", "Text A", 60⟩

/-- Sample description b. -/
def dB : Description := ⟨"b", "Text B", 120⟩

/-- Sample description c. -/
def dC : Description := ⟨"c", "Text C", 180⟩

/-- Sample configuration with three descriptions. -/
def cfg3 : DescriptionConfig := ⟨[dA, dB, dC], false, true⟩

/-- Rate limiter from src/telegram/rate_limiter.rs (struct RateLimiter). -/
structure RateLimiter where
  min_interval : Nat
deriving Repr, DecidableEq

/-- Mutex-guarded last-operation record of the rate limiter; the Instant is
modelled as an absolute time in the same units as min_interval. -/
structure RateLimiterState where
  last_operation : Option Nat
deriving Repr, DecidableEq

/-- RateLimiter::wait_and_acquire, with the clock explicit. The tokio sleep
is modelled ideally: after sleeping the computed wait starting at now, the
recorded Instant::now() equals now + wait. Returns the waited duration and
the new last-operation record. -/
def RateLimiter.wait_and_acquire (rl : RateLimiter) (now : Nat)
    (st : RateLimiterState) : Nat × RateLimiterState :=
  let wait :=
    match st.last_operation with
    | some last_time =>
        let elapsed := now - last_time
        if elapsed < rl.min_interval then rl.min_interval - elapsed else 0
    | none => 0
  (wait, ⟨some (now + wait)⟩)

/-- Result of command execution from src/commands/types.rs
(struct CommandResult). -/
structure CommandResult where
  success : Bool
  message : String
  trigger_update : Bool
deriving Repr, DecidableEq

/-- CommandResult::success (named mkSuccess here because success is already
the field name). -/
def CommandResult.mkSuccess (message : String) : CommandResult :=
  ⟨true, message, false⟩

/-- CommandResult::success_with_update. -/
def CommandResult.mkSuccessWithUpdate (message : String) : CommandResult :=
  ⟨true, message, true⟩

/-- CommandResult::error (named mkError for symmetry with mkSuccess). -/
def CommandResult.mkError (message : String) : CommandResult :=
  ⟨false, message, false⟩

/-- Scheduler state as src/commands/handler.rs uses it. The handler assigns a
field state.skip_current that struct SchedulerState in
src/scheduler/state.rs does not declare (as committed, the crate does not
compile), so the handler view of the state is the scheduler state extended
with that flag. -/
structure HandlerState where
  base : SchedulerState
  skip_current : Bool
deriving Repr, DecidableEq

/-- Persistence side effects a command handler performs (file writes in the
source; the scheduler state file and the descriptions config file). -/
inductive Effect where
  | saveState (p : PersistentState)
  | saveConfig (c : DescriptionConfig)
deriving Repr, DecidableEq

/-- Observable outcome of one command handler call: the scheduler state and
config afterwards, the CommandResult returned, and every persistence side
effect the handler performed. -/
structure HandlerOutcome where
  state : HandlerState
  config : DescriptionConfig
  result : CommandResult
  effects : List Effect
deriving Repr, DecidableEq

/-- Truncation helper at the bottom of src/commands/handler.rs. -/
def truncate (s : String) (max_len : Nat) : String :=
  if s.length ≤ max_len then s
  else String.mk (s.toList.take max_len) ++ "..."

/-- Error message of handle_skip when paused (the apostrophes of the source
string are written as the escape x27). -/
def skipWhilePausedMsg : String :=
  "Cannot skip while paused. Use \x27resume\x27 first."

/-- Not-found message shared by goto/view/delete in handler.rs. -/
def notFoundMsg (target : String) : String :=
  "Description not found: \x27" ++ target
    ++ "\x27. Use \x27list\x27 to see available descriptions."

/-- CommandHandler::handle_skip (src/commands/handler.rs): rejects when
paused; otherwise sets the skip_current flag and reports success with a
trigger update. It neither clears the deadline nor saves anything. -/
def handle_skip (cfg : DescriptionConfig) (st : HandlerState) : HandlerOutcome :=
  if st.base.is_paused then
    { state := st, config := cfg,
      result := CommandResult.mkError skipWhilePausedMsg, effects := [] }
  else
    { state := { st with skip_current := true }, config := cfg,
      result := CommandResult.mkSuccessWithUpdate "✓ Skipping current description...",
      effects := [] }

/-- CommandHandler::handle_pause: sets is_paused; performs no save. -/
def handle_pause (cfg : DescriptionConfig) (st : HandlerState) : HandlerOutcome :=
  if st.base.is_paused then
    { state := st, config := cfg,
      result := CommandResult.mkError "Already paused.", effects := [] }
  else
    { state := { st with base := { st.base with is_paused := true } }, config := cfg,
      result := CommandResult.mkSuccess "⏸ Description rotation paused.",
      effects := [] }

/-- CommandHandler::handle_resume: clears is_paused; performs no save. -/
def handle_resume (cfg : DescriptionConfig) (st : HandlerState) : HandlerOutcome :=
  if st.base.is_paused then
    { state := { st with base := { st.base with is_paused := false } }, config := cfg,
      result := CommandResult.mkSuccess "▶ Description rotation resumed.",
      effects := [] }
  else
    { state := st, config := cfg,
      result := CommandResult.mkError "Already running.", effects := [] }

/-- Target resolution of handle_goto: first by id, then as a 1-based index
(Rust parses with usize::from_str; String.toNat? models the all-digit case). -/
def resolveTarget (cfg : DescriptionConfig) (target : String) : Option Nat :=
  match cfg.descriptions.findIdx? (fun d => d.id == target) with
  | some i => some i
  | none =>
    match target.toNat? with
    | some i => if 0 < i ∧ i ≤ cfg.len then some (i - 1) else none
    | none => none

/-- CommandHandler::handle_goto: resolves the target, sets current_index and
the skip_current flag; performs no save and does not clear the deadline.
The source indexes config.descriptions[idx] directly for the message; the
resolved index is always in range, so the getD default is never used. -/
def handle_goto (target : String) (cfg : DescriptionConfig) (st : HandlerState) :
    HandlerOutcome :=
  match resolveTarget cfg target with
  | some idx =>
      let desc := (cfg.get idx).getD ⟨"", "", 0⟩
      { state := { st with base := { st.base with current_index := idx },
                           skip_current := true },
        config := cfg,
        result := CommandResult.mkSuccessWithUpdate ("✓ Jumping to [" ++ desc.id
          ++ "]: \"" ++ truncate desc.text 30 ++ "\""),
        effects := [] }
  | none =>
      { state := st, config := cfg,
        result := CommandResult.mkError (notFoundMsg target), effects := [] }

/-- Rust char::is_control (the Unicode Cc category). -/
def charIsControl (c : Char) : Bool :=
  c.toNat < 0x20 || (0x7F ≤ c.toNat && c.toNat ≤ 0x9F)

/-- Upper-case four-digit hex rendering used by the U+ codes in the
validation messages (the 04X format of the source). -/
def hexDigit (n : Nat) : Char :=
  "0123456789ABCDEF".toList.getD n '0'

/-- Four-hex-digit rendering of a code point below 0x10000. -/
def hexUpper (n : Nat) : String :=
  String.mk [hexDigit (n / 4096 % 16), hexDigit (n / 256 % 16),
             hexDigit (n / 16 % 16), hexDigit (n % 16)]

/-- The zero-width characters rejected by validate_description_text:
zero-width space, zero-width non-joiner, zero-width joiner, word joiner and
the byte-order mark. -/
def suspiciousChars : List Char :=
  [Char.ofNat 0x200B, Char.ofNat 0x200C, Char.ofNat 0x200D,
   Char.ofNat 0x2060, Char.ofNat 0xFEFF]

/-- Free function validate_description_text of src/commands/handler.rs,
returning the error message (none when valid): empty text, length over the
premium/free limit, control characters other than newline and tab, the
object replacement character, and zero-width characters are rejected. -/
def validate_description_text (text : String) (cfg : DescriptionConfig) :
    Option String :=
  if text.isEmpty then some "Description text cannot be empty."
  else
    let max_len := if cfg.is_premium then MAX_BIO_LENGTH_PREMIUM
                   else MAX_BIO_LENGTH_FREE
    let char_count := text.length
    if char_count > max_len then
      some ("Text too long: " ++ toString char_count ++ " chars (max: "
        ++ toString max_len ++ ")")
    else
      match text.toList.find? (fun c => charIsControl c && c != '\n' && c != '\t') with
      | some c => some ("Invalid character detected (code: U+" ++ hexUpper c.toNat
          ++ "). Only text is allowed.")
      | none =>
        if text.toList.contains (Char.ofNat 0xFFFC) then
          some "Embedded objects (images, files) are not allowed. Only text is supported."
        else
          match suspiciousChars.find? (fun c => text.toList.contains c) with
          | some c => some ("Invisible/zero-width characters detected (U+"
              ++ hexUpper c.toNat ++ "). Please use only visible text.")
          | none => none

/-- CommandHandler::handle_set: validates the text, then stores it as the
pending custom description and raises the skip_current flag; performs no
save. -/
def handle_set (text : String) (cfg : DescriptionConfig) (st : HandlerState) :
    HandlerOutcome :=
  match validate_description_text text cfg with
  | some e =>
      { state := st, config := cfg, result := CommandResult.mkError e, effects := [] }
  | none =>
      { state := { st with base := { st.base with custom_description := some text },
                           skip_current := true },
        config := cfg,
        result := CommandResult.mkSuccessWithUpdate ("✓ Setting custom description: \""
          ++ truncate text 30 ++ "\""),
        effects := [] }

/-- Validation errors of src/config/descriptions.rs (enum ValidationError;
the IO and parse variants concern file handling and are not needed here). -/
inductive ValidationError where
  | TooLong (index : Nat) (id : String) (length : Nat) (max_length : Nat)
  | EmptyText (index : Nat) (id : String)
  | DuplicateId (id : String)
  | InvalidDuration (index : Nat) (id : String) (duration_secs : Nat)
  | NoDescriptions
deriving Repr, DecidableEq

/-- Display strings of ValidationError (the thiserror error attributes). -/
def ValidationError.message : ValidationError → String
  | .TooLong index id length max_length =>
      "Description at index " ++ toString index ++ " (id: " ++ id
        ++ ") exceeds maximum length: " ++ toString length ++ " > "
        ++ toString max_length
  | .EmptyText index id =>
      "Description at index " ++ toString index ++ " (id: " ++ id ++ ") is empty"
  | .DuplicateId id => "Duplicate description ID found: " ++ id
  | .InvalidDuration index id duration_secs =>
      "Description at index " ++ toString index ++ " (id: " ++ id
        ++ ") has invalid duration: " ++ toString duration_secs
        ++ " seconds (must be > 0)"
  | .NoDescriptions => "No descriptions configured"

/-- Loop body of DescriptionConfig::validate: walks the descriptions in
order with the set of already-seen ids and the running index, returning the
first error. -/
def validateFrom (max_length : Nat) : List String → Nat → List Description →
    Option ValidationError
  | _, _, [] => none
  | seen, index, d :: rest =>
    if seen.contains d.id then some (ValidationError.DuplicateId d.id)
    else if d.text.isEmpty then some (ValidationError.EmptyText index d.id)
    else if d.char_count > max_length then
      some (ValidationError.TooLong index d.id d.char_count max_length)
    else if d.duration_secs = 0 then
      some (ValidationError.InvalidDuration index d.id d.duration_secs)
    else validateFrom max_length (d.id :: seen) (index + 1) rest

/-- DescriptionConfig::validate (none = Ok). -/
def DescriptionConfig.validate (c : DescriptionConfig) : Option ValidationError :=
  if c.descriptions.isEmpty then some ValidationError.NoDescriptions
  else
    validateFrom (if c.is_premium then MAX_BIO_LENGTH_PREMIUM else MAX_BIO_LENGTH_FREE)
      [] 0 c.descriptions

/-- CommandHandler::handle_reload: the file load result is supplied as an
oracle (loaded). On a successful load that validates, the config is
replaced and current_index is reset to 0 when it is at or beyond the new
count; nothing is saved. -/
def handle_reload (loaded : Except String DescriptionConfig)
    (cfg : DescriptionConfig) (st : HandlerState) : HandlerOutcome :=
  match loaded with
  | Except.error e =>
      { state := st, config := cfg,
        result := CommandResult.mkError ("Failed to reload: " ++ e), effects := [] }
  | Except.ok new_config =>
    match new_config.validate with
    | some verr =>
        { state := st, config := cfg,
          result := CommandResult.mkError ("Validation failed: " ++ verr.message),
          effects := [] }
    | none =>
        let old_len := cfg.len
        let new_len := new_config.len
        let st' := if st.base.current_index ≥ new_len
          then { st with base := { st.base with current_index := 0 } }
          else st
        { state := st', config := new_config,
          result := CommandResult.mkSuccess ("✓ Reloaded configuration. "
            ++ toString old_len ++ " → " ++ toString new_len ++ " descriptions."),
          effects := [] }

/-- CommandHandler::handle_delete. The config-file write is supplied as an
oracle (save_result, none = Ok): on a failed save the removed entry is
inserted back at the same position, which restores the original config. On
success the index is adjusted: 0 when the list became empty, clamped to the
new count minus one when at or beyond it, decremented when an earlier entry
was removed, otherwise unchanged. The removed entry exists because findIdx?
returned its position, so the getD default is never used. -/
def handle_delete (save_result : Option String) (id : String)
    (cfg : DescriptionConfig) (st : HandlerState) : HandlerOutcome :=
  match cfg.descriptions.findIdx? (fun d => d.id == id) with
  | none =>
      { state := st, config := cfg,
        result := CommandResult.mkError (notFoundMsg id), effects := [] }
  | some idx =>
    let removed := (cfg.get idx).getD ⟨"", "", 0⟩
    let cfg' : DescriptionConfig :=
      { cfg with descriptions := cfg.descriptions.eraseIdx idx }
    match save_result with
    | some e =>
        { state := st, config := cfg,
          result := CommandResult.mkError ("Failed to save: " ++ e), effects := [] }
    | none =>
        let new_index :=
          if cfg'.is_empty then 0
          else if st.base.current_index ≥ cfg'.len then cfg'.len - 1
          else if st.base.current_index > idx then st.base.current_index - 1
          else st.base.current_index
        { state := { st with base := { st.base with current_index := new_index } },
          config := cfg',
          result := CommandResult.mkSuccess ("✓ Deleted [" ++ id ++ "]: \""
            ++ truncate removed.text 30 ++ "\""),
          effects := [Effect.saveConfig cfg'] }

/-- Helper: the index after one advance with a nonzero count. -/
theorem advance_index (s : SchedulerState) (c : Nat) (hc0 : c ≠ 0) :
    (s.advance c).current_index = (s.current_index + 1) % c := by
  simp [SchedulerState.advance, hc0]

/-- Helper for the C7 wrap-around proof: the index after k advances. -/
theorem advance_iterate_index (c : Nat) (hc : 0 < c) :
    ∀ (k : Nat) (s : SchedulerState), s.current_index < c →
      ((fun st => SchedulerState.advance st c)^[k] s).current_index =
        (s.current_index + k) % c := by
  intro k
  induction k with
  | zero =>
    intro s hs
    simpa using (Nat.mod_eq_of_lt hs).symm
  | succ n ih =>
    intro s hs
    rw [Function.iterate_succ_apply']
    have hc0 : c ≠ 0 := Nat.pos_iff_ne_zero.mp hc
    show (SchedulerState.advance ((fun st => SchedulerState.advance st c)^[n] s)
      c).current_index = _
    rw [advance_index _ c hc0, ih s hs, Nat.mod_add_mod, Nat.add_assoc]

/-- C7 counterexample: the claim quantifies over every starting index, but for a
starting index outside the range of the count the wrap-around law fails: with
count 2 and starting index 2, two advances land on 0, not back on 2. -/
theorem advance_wraparound_any_index_cex :
    ¬ (((fun st => SchedulerState.advance st 2)^[2]
          ⟨2, false, none, none, none⟩).current_index = 2) := by
  decide

/-- C7 (amended): for every count c > 0 and starting index inside the range
[0, c), applying advance c times returns current_index to its original value;
one advance sets current_index to (current_index + 1) mod c; and advance 0 is
a no-op. -/
theorem advance_laws (s : SchedulerState) (c : Nat) (hc : 0 < c)
    (hi : s.current_index < c) :
    ((fun st => SchedulerState.advance st c)^[c] s).current_index = s.current_index
    ∧ (s.advance c).current_index = (s.current_index + 1) % c
    ∧ s.advance 0 = s := by
  refine ⟨?_, ?_, ?_⟩
  · rw [advance_iterate_index c hc c s hi, Nat.add_mod_right, Nat.mod_eq_of_lt hi]
  · rw [SchedulerState.advance, if_neg (Nat.pos_iff_ne_zero.mp hc)]
  · rfl

/-- Witness for advance_laws at count 3, starting index 1. -/
theorem advance_laws_witness :
    0 < 3 ∧ (1 : Nat) < 3
    ∧ (((fun st => SchedulerState.advance st 3)^[3]
          ⟨1, false, none, none, none⟩).current_index = 1
        ∧ (SchedulerState.advance ⟨1, false, none, none, none⟩ 3).current_index = (1 + 1) % 3
        ∧ SchedulerState.advance ⟨1, false, none, none, none⟩ 0
            = ⟨1, false, none, none, none⟩) :=
  ⟨by decide, by decide, advance_laws ⟨1, false, none, none, none⟩ 3 (by decide) (by decide)⟩

/-- C8: from_persistent after to_persistent reproduces current_index, is_paused,
the pending override and the deadline exactly (the persistent projection stores
the deadline in whole Unix seconds, exactly as the runtime state holds it, so
reproduction is exact and in particular within one second). -/
theorem persistent_roundtrip (s : SchedulerState) :
    (SchedulerState.from_persistent s.to_persistent).current_index = s.current_index
    ∧ (SchedulerState.from_persistent s.to_persistent).is_paused = s.is_paused
    ∧ (SchedulerState.from_persistent s.to_persistent).custom_description
        = s.custom_description
    ∧ (SchedulerState.from_persistent s.to_persistent).expires_at_unix
        = s.expires_at_unix :=
  ⟨rfl, rfl, rfl, rfl⟩

/-- C1: whenever the external update call returns a failure (rate-limited,
flood-wait, unauthorized or any other error), the decision cycle leaves the
scheduler state exactly as it found it — current_index, is_paused, the
pending override and the deadline included — and persists nothing. -/
theorem tick_failure_state_unchanged (now : Nat) (cfg : DescriptionConfig)
    (st : SchedulerState) (e : TelegramError) :
    (tick now cfg st (UpdateResult.err e)).state = st
    ∧ (tick now cfg st (UpdateResult.err e)).saved = none := by
  unfold tick
  split
  · exact ⟨rfl, rfl⟩
  · split
    · exact ⟨rfl, rfl⟩
    · split
      · exact ⟨rfl, rfl⟩
      · dsimp only
        split
        · exact ⟨rfl, rfl⟩
        · exact ⟨rfl, rfl⟩

/-- C2: on a successful update with no pending override, the committed
current_index is (current_index + 1) mod count exactly when the pre-cycle
state had a deadline, and is the unchanged current_index when it had none;
in the no-deadline case with the index in range, the text sent to the
external call is the description at the current index, used as-is. -/
theorem tick_success_advances_iff_deadline (now : Nat) (cfg : DescriptionConfig)
    (st : SchedulerState)
    (hp : st.is_paused = false) (he : st.is_expired now = true)
    (hne : cfg.is_empty = false) (hcustom : st.custom_description = none) :
    (tick now cfg st UpdateResult.ok).state.current_index
      = (if st.has_deadline then (st.current_index + 1) % cfg.len
         else st.current_index)
    ∧ (st.has_deadline = false → st.current_index < cfg.len →
        (tick now cfg st UpdateResult.ok).sent
          = (cfg.get st.current_index).map Description.text) := by
  have hlen : 0 < cfg.len := by
    rcases cfg with ⟨ds, prem, auto⟩
    cases ds with
    | nil => simp [DescriptionConfig.is_empty] at hne
    | cons d rest => simp [DescriptionConfig.len]
  cases hdl : st.has_deadline with
  | true =>
    have hlt : (st.current_index + 1) % cfg.len < cfg.len := Nat.mod_lt _ hlen
    obtain ⟨d, hd⟩ : ∃ d, cfg.get ((st.current_index + 1) % cfg.len) = some d := by
      rw [DescriptionConfig.get]
      exact ⟨_, List.getElem?_eq_getElem hlt⟩
    constructor
    · simp [tick, hp, he, hne, hcustom, hdl, hd, tickCommit, Option.orElse,
        SchedulerState.set_deadline, advance_index _ _ (Nat.pos_iff_ne_zero.mp hlen)]
    · intro hcontra
      simp at hcontra
  | false =>
    constructor
    · rcases hopt : (cfg.get st.current_index).orElse (fun _ => cfg.get 0) with _ | d
      · simp [tick, hp, he, hne, hcustom, hdl, hopt]
      · simp [tick, hp, he, hne, hcustom, hdl, hopt, tickCommit,
          SchedulerState.set_deadline]
    · intro _ hlt2
      obtain ⟨d, hd⟩ : ∃ d, cfg.get st.current_index = some d := by
        rw [DescriptionConfig.get]
        exact ⟨_, List.getElem?_eq_getElem hlt2⟩
      simp [tick, hp, he, hne, hcustom, hdl, hd, tickCommit, Option.orElse]

/-- Witness for tick_success_advances_iff_deadline: index 0 with an expired
deadline (50 at now = 100) in a three-entry configuration. -/
theorem tick_success_advances_iff_deadline_witness :
    (tick 100 cfg3 ⟨0, false, none, some 50, some 60⟩ UpdateResult.ok).state.current_index
      = (if (⟨0, false, none, some 50, some 60⟩ : SchedulerState).has_deadline
         then ((⟨0, false, none, some 50, some 60⟩ : SchedulerState).current_index + 1) % cfg3.len
         else (⟨0, false, none, some 50, some 60⟩ : SchedulerState).current_index)
    ∧ ((⟨0, false, none, some 50, some 60⟩ : SchedulerState).has_deadline = false →
        (⟨0, false, none, some 50, some 60⟩ : SchedulerState).current_index < cfg3.len →
        (tick 100 cfg3 ⟨0, false, none, some 50, some 60⟩ UpdateResult.ok).sent
          = (cfg3.get (⟨0, false, none, some 50, some 60⟩ : SchedulerState).current_index).map
              Description.text) :=
  tick_success_advances_iff_deadline 100 cfg3 ⟨0, false, none, some 50, some 60⟩
    rfl rfl rfl rfl

/-- C3: with a pending override and a successful external update, the text
sent to the external call is the override verbatim, current_index is not
advanced, and the override is cleared in the committed state. -/
theorem tick_override_applied_verbatim (now : Nat) (cfg : DescriptionConfig)
    (st : SchedulerState) (t : String)
    (hp : st.is_paused = false) (he : st.is_expired now = true)
    (hne : cfg.is_empty = false) (hcustom : st.custom_description = some t) :
    (tick now cfg st UpdateResult.ok).sent = some t
    ∧ (tick now cfg st UpdateResult.ok).state.current_index = st.current_index
    ∧ (tick now cfg st UpdateResult.ok).state.custom_description = none := by
  refine ⟨?_, ?_, ?_⟩ <;>
    simp [tick, hp, he, hne, hcustom, tickCommit, SchedulerState.set_deadline]

/-- Witness for tick_override_applied_verbatim: override set while index is 1,
no deadline, three-entry configuration. -/
theorem tick_override_applied_verbatim_witness :
    (tick 0 cfg3 ⟨1, false, some "Back in 5", none, none⟩ UpdateResult.ok).sent
      = some "Back in 5"
    ∧ (tick 0 cfg3 ⟨1, false, some "Back in 5", none, none⟩
        UpdateResult.ok).state.current_index
      = (⟨1, false, some "Back in 5", none, none⟩ : SchedulerState).current_index
    ∧ (tick 0 cfg3 ⟨1, false, some "Back in 5", none, none⟩
        UpdateResult.ok).state.custom_description = none :=
  tick_override_applied_verbatim 0 cfg3 ⟨1, false, some "Back in 5", none, none⟩
    "Back in 5" rfl rfl rfl rfl

/-- C9: wait_and_acquire records the post-wait time as the last operation, so
at the moment of recording at least min_interval has elapsed since the
previous record; for two back-to-back calls (the second starting once the
first has finished waiting) the second returned wait equals min_interval
minus the time elapsed since the first call completed, clamped at zero, and
is never negative. -/
theorem wait_and_acquire_spec (rl : RateLimiter) (st0 : RateLimiterState)
    (t0 t1 : Nat) (h : t0 + (rl.wait_and_acquire t0 st0).1 ≤ t1) :
    (rl.wait_and_acquire t0 st0).2.last_operation
      = some (t0 + (rl.wait_and_acquire t0 st0).1)
    ∧ (rl.wait_and_acquire t1 (rl.wait_and_acquire t0 st0).2).2.last_operation
      = some (t1 + (rl.wait_and_acquire t1 (rl.wait_and_acquire t0 st0).2).1)
    ∧ t0 + (rl.wait_and_acquire t0 st0).1 + rl.min_interval
      ≤ t1 + (rl.wait_and_acquire t1 (rl.wait_and_acquire t0 st0).2).1
    ∧ ((rl.wait_and_acquire t1 (rl.wait_and_acquire t0 st0).2).1 : ℤ)
      = max ((rl.min_interval : ℤ)
          - ((t1 : ℤ) - ((t0 + (rl.wait_and_acquire t0 st0).1 : Nat) : ℤ))) 0
    ∧ 0 ≤ ((rl.wait_and_acquire t1 (rl.wait_and_acquire t0 st0).2).1 : ℤ) := by
  have hst1 : (rl.wait_and_acquire t0 st0).2
      = ⟨some (t0 + (rl.wait_and_acquire t0 st0).1)⟩ := rfl
  refine ⟨rfl, rfl, ?_, ?_, Int.natCast_nonneg _⟩
  · rw [hst1]
    show t0 + (rl.wait_and_acquire t0 st0).1 + rl.min_interval
      ≤ t1 + (if t1 - (t0 + (rl.wait_and_acquire t0 st0).1) < rl.min_interval
              then rl.min_interval - (t1 - (t0 + (rl.wait_and_acquire t0 st0).1))
              else 0)
    split_ifs with hw <;> omega
  · rw [hst1]
    show ((if t1 - (t0 + (rl.wait_and_acquire t0 st0).1) < rl.min_interval
           then rl.min_interval - (t1 - (t0 + (rl.wait_and_acquire t0 st0).1))
           else 0 : Nat) : ℤ)
      = max ((rl.min_interval : ℤ)
          - ((t1 : ℤ) - ((t0 + (rl.wait_and_acquire t0 st0).1 : Nat) : ℤ))) 0
    split_ifs with hw <;> push_cast <;> omega

/-- Witness for wait_and_acquire_spec: interval 100, first call at 0 on a
fresh limiter (waits 0), second call at 30, which must wait 70. -/
theorem wait_and_acquire_spec_witness :
    (RateLimiter.wait_and_acquire ⟨100⟩ 0 ⟨none⟩).2.last_operation
      = some (0 + (RateLimiter.wait_and_acquire ⟨100⟩ 0 ⟨none⟩).1)
    ∧ (RateLimiter.wait_and_acquire ⟨100⟩ 30
        (RateLimiter.wait_and_acquire ⟨100⟩ 0 ⟨none⟩).2).2.last_operation
      = some (30 + (RateLimiter.wait_and_acquire ⟨100⟩ 30
          (RateLimiter.wait_and_acquire ⟨100⟩ 0 ⟨none⟩).2).1)
    ∧ 0 + (RateLimiter.wait_and_acquire ⟨100⟩ 0 ⟨none⟩).1 + (⟨100⟩ : RateLimiter).min_interval
      ≤ 30 + (RateLimiter.wait_and_acquire ⟨100⟩ 30
          (RateLimiter.wait_and_acquire ⟨100⟩ 0 ⟨none⟩).2).1
    ∧ ((RateLimiter.wait_and_acquire ⟨100⟩ 30
        (RateLimiter.wait_and_acquire ⟨100⟩ 0 ⟨none⟩).2).1 : ℤ)
      = max (((⟨100⟩ : RateLimiter).min_interval : ℤ)
          - ((30 : ℤ) - ((0 + (RateLimiter.wait_and_acquire ⟨100⟩ 0 ⟨none⟩).1 : Nat) : ℤ))) 0
    ∧ 0 ≤ ((RateLimiter.wait_and_acquire ⟨100⟩ 30
        (RateLimiter.wait_and_acquire ⟨100⟩ 0 ⟨none⟩).2).1 : ℤ) :=
  wait_and_acquire_spec ⟨100⟩ ⟨none⟩ 0 30 (by decide)

/-- C10: a skip issued while paused returns an error result carrying the
cannot-skip-while-paused message and leaves the scheduler state, the config
and the effect list completely unchanged. -/
theorem skip_while_paused_rejected (cfg : DescriptionConfig) (st : HandlerState)
    (hp : st.base.is_paused = true) :
    (handle_skip cfg st).result.success = false
    ∧ (handle_skip cfg st).result.message = skipWhilePausedMsg
    ∧ (handle_skip cfg st).state = st
    ∧ (handle_skip cfg st).config = cfg
    ∧ (handle_skip cfg st).effects = [] := by
  simp [handle_skip, hp, CommandResult.mkError]

/-- Witness for skip_while_paused_rejected at a concrete paused state. -/
theorem skip_while_paused_rejected_witness :
    (handle_skip cfg3 ⟨⟨0, true, none, none, none⟩, false⟩).result.success = false
    ∧ (handle_skip cfg3 ⟨⟨0, true, none, none, none⟩, false⟩).result.message
        = skipWhilePausedMsg
    ∧ (handle_skip cfg3 ⟨⟨0, true, none, none, none⟩, false⟩).state
        = ⟨⟨0, true, none, none, none⟩, false⟩
    ∧ (handle_skip cfg3 ⟨⟨0, true, none, none, none⟩, false⟩).config = cfg3
    ∧ (handle_skip cfg3 ⟨⟨0, true, none, none, none⟩, false⟩).effects = [] :=
  skip_while_paused_rejected cfg3 ⟨⟨0, true, none, none, none⟩, false⟩ rfl

/-- C6 evaluation at the failing input: a successful skip on a running state
with a deadline set (expires at 100) leaves the deadline set — has_deadline
stays true — because handle_skip only raises the skip_current flag and never
calls clear_deadline, contradicting the claim and the module documentation
of runner.rs. -/
theorem skip_leaves_deadline_set :
    (handle_skip cfg3 ⟨⟨0, false, none, some 100, some 60⟩, false⟩).result.success
        = true
    ∧ (handle_skip cfg3 ⟨⟨0, false, none, some 100, some 60⟩, false⟩).state.base.has_deadline
        = true
    ∧ (handle_skip cfg3 ⟨⟨0, false, none, some 100, some 60⟩, false⟩).state.base.expires_at_unix
        = some 100
    ∧ (handle_skip cfg3 ⟨⟨0, false, none, some 100, some 60⟩, false⟩).state.skip_current
        = true := by
  decide

/-- C4 evaluation: none of the state-mutating command handlers (pause,
resume, skip, goto, set) performs any persistence effect, on any input —
in particular the mutated scheduler state is never saved inside the
command, contradicting the claim and the module documentation of
runner.rs. -/
theorem handlers_never_persist_scheduler_state :
    (∀ cfg st, (handle_pause cfg st).effects = [])
    ∧ (∀ cfg st, (handle_resume cfg st).effects = [])
    ∧ (∀ cfg st, (handle_skip cfg st).effects = [])
    ∧ (∀ target cfg st, (handle_goto target cfg st).effects = [])
    ∧ (∀ text cfg st, (handle_set text cfg st).effects = []) := by
  refine ⟨fun cfg st => ?_, fun cfg st => ?_, fun cfg st => ?_,
    fun target cfg st => ?_, fun text cfg st => ?_⟩
  · unfold handle_pause; split <;> rfl
  · unfold handle_resume; split <;> rfl
  · unfold handle_skip; split <;> rfl
  · unfold handle_goto; split <;> rfl
  · unfold handle_set; split <;> rfl

/-- C5 counterexample: deleting the last entry of the three-entry
configuration while current_index is 2 shrinks the count to 2, at or below
the stored index, yet handle_delete re-clamps the index to 1 (the new count
minus one), not to 0. -/
theorem delete_shrink_not_reclamped_to_zero_cex :
    (handle_delete none "c" cfg3
        ⟨⟨2, false, none, none, none⟩, false⟩).config.len
      ≤ (⟨⟨2, false, none, none, none⟩, false⟩ : HandlerState).base.current_index
    ∧ ¬ ((handle_delete none "c" cfg3
        ⟨⟨2, false, none, none, none⟩, false⟩).state.base.current_index = 0) := by
  decide

/-- C5 (amended): when the description count shrinks to at or below the
stored index, the index is re-clamped to a valid position — reload
re-clamps it to 0, while delete clamps it to the new count minus one (0
when the list becomes empty). -/
theorem shrink_reclamps_index :
    (∀ (nc cfg : DescriptionConfig) (st : HandlerState),
        nc.validate = none →
        nc.len ≤ st.base.current_index →
        (handle_reload (Except.ok nc) cfg st).state.base.current_index = 0)
    ∧ (∀ (id : String) (cfg : DescriptionConfig) (st : HandlerState) (idx : Nat),
        cfg.descriptions.findIdx? (fun d => d.id == id) = some idx →
        idx < cfg.len →
        cfg.len - 1 ≤ st.base.current_index →
        (handle_delete none id cfg st).state.base.current_index
          = if cfg.len = 1 then 0 else cfg.len - 2) := by
  constructor
  · intro nc cfg st hv hle
    unfold handle_reload
    simp only [hv]
    rw [if_pos hle]
  · intro id cfg st idx hfind hlt hle
    unfold handle_delete
    simp only [hfind]
    have hlen' : (cfg.descriptions.eraseIdx idx).length + 1
        = cfg.descriptions.length := List.length_eraseIdx_add_one hlt
    simp only [DescriptionConfig.is_empty, DescriptionConfig.len] at *
    by_cases hA : (cfg.descriptions.eraseIdx idx).isEmpty = true
    · have h0 : (cfg.descriptions.eraseIdx idx).length = 0 := by
        rw [List.isEmpty_iff] at hA
        simp [hA]
      rw [if_pos hA, if_pos (show cfg.descriptions.length = 1 by omega)]
    · have h0 : (cfg.descriptions.eraseIdx idx).length ≠ 0 := by
        intro h
        exact hA (by simp [List.isEmpty_iff, List.length_eq_zero.mp h])
      rw [if_neg hA,
        if_pos (show st.base.current_index ≥ (cfg.descriptions.eraseIdx idx).length
          by omega),
        if_neg (show ¬ cfg.descriptions.length = 1 by omega)]
      omega

/-- Witness for shrink_reclamps_index: reload to a one-entry config with
stored index 5 re-clamps to 0; deleting entry c of the three-entry config
with stored index 2 clamps to the new count minus one. -/
theorem shrink_reclamps_index_witness :
    (handle_reload (Except.ok ⟨[dA], false, true⟩) cfg3
        ⟨⟨5, false, none, none, none⟩, false⟩).state.base.current_index = 0
    ∧ (handle_delete none "c" cfg3
        ⟨⟨2, false, none, none, none⟩, false⟩).state.base.current_index
      = if cfg3.len = 1 then 0 else cfg3.len - 2 :=
  ⟨shrink_reclamps_index.1 ⟨[dA], false, true⟩ cfg3
      ⟨⟨5, false, none, none, none⟩, false⟩ (by decide) (by decide),
   shrink_reclamps_index.2 "c" cfg3 ⟨⟨2, false, none, none, none⟩, false⟩ 2
      (by decide) (by decide) (by decide)⟩
